import Mathlib

/-!
Shallow embedding of the maptalks.js vector-marker rendering subsystem:
the marker symbolizer `src/src/renderer/geometry/symbolizers/VectorMarkerSymbolizer.js`
and the canvas renderer mixins `src/src/renderer/geometry/VectorRenderer.js`.

Modelling conventions:
* JS numbers appearing in style fields and pixel arithmetic are modelled as `ℚ`
  (the code performs only field arithmetic on them); coordinates flowing through
  `Math.atan` / vector normalization (`Math.sqrt`) are modelled as `ℝ`.
* Nullable / possibly-`undefined` JS values are modelled as `Option`.
* Drawing-surface invocations are recorded as an explicit trace of `SurfaceOp`
  values; geometric payloads that none of the verified properties depend on
  (vertex coordinates passed to the surface primitives) are omitted from the
  trace constructors, while opacities and line-cap values are kept.
* A JS exception (`throw new Error(...)`) is modelled by an `Option String`
  error component: once an error is raised the remaining statements of the
  surrounding call do not execute, and the error propagates to the caller.
-/

namespace Maptalks

/-- Modelled from the spec: `getValueOrDefault` from `core/util` (not under
`src/`): a caller-supplied value is used unless it is null/undefined, in which
case the fixed default applies. -/
def getValueOrDefault {α : Type} (v : Option α) (d : α) : α :=
  v.getD d

/-- JS truncation toward zero (the rounding used by the JS `%` operator on its
implicit division), on rational numbers. -/
def jsTrunc (q : ℚ) : ℤ :=
  if 0 ≤ q then ⌊q⌋ else ⌈q⌉

/-- The JS remainder operator `a % b`: `a - b * trunc (a / b)`. -/
def jsMod (a b : ℚ) : ℚ :=
  a - b * (jsTrunc (a / b) : ℚ)

/-- JS `Array.prototype.join(sep)` on an array of strings. -/
def joinSep (sep : String) : List String → String
  | [] => ""
  | [a] => a
  | a :: b :: rest => a ++ sep ++ joinSep sep (b :: rest)

/-- Rendering of a JS number into a string, as performed implicitly by
`Array.prototype.join`. The exact digit syntax is irrelevant to every verified
property (only functionality in the numeric value is used), so a simple
numerator/denominator rendering is chosen. -/
def numStr (q : ℚ) : String :=
  toString q.num ++ "/" ++ toString q.den

/-- Rendering of a nullable string by `Array.prototype.join`: null and
undefined entries become the empty string. -/
def optStr (o : Option String) : String :=
  o.getD ""

/-- JS `String.prototype.toLowerCase()` on the ASCII kind names this module
compares against. -/
def jsToLower (s : String) : String :=
  ⟨s.data.map fun c =>
    if 65 ≤ c.toNat ∧ c.toNat ≤ 90 then Char.ofNat (c.toNat + 32) else c⟩

/-- A marker symbol definition as supplied by the caller: every field may be
absent (undefined). Colors are modelled as solid color strings; gradient
objects live in the external `core/util/style` module which is outside `src/`. -/
structure Symbol where
  markerType : Option String := none
  markerFill : Option String := none
  markerFillOpacity : Option ℚ := none
  markerFillPatternFile : Option String := none
  markerLineColor : Option String := none
  markerLineWidth : Option ℚ := none
  markerLineOpacity : Option ℚ := none
  markerLineDasharray : Option (List ℚ) := none
  markerLinePatternFile : Option String := none
  markerWidth : Option ℚ := none
  markerHeight : Option ℚ := none
  markerDx : Option ℚ := none
  markerDy : Option ℚ := none
  markerOpacity : Option ℚ := none
  markerRotation : Option ℚ := none
  deriving DecidableEq

/-- The resolved style produced by `VectorMarkerSymbolizer.translate()`.
`markerRotation` is carried as an optional field because `getRotation()` reads
`this.style['markerRotation']` (the key is absent on the object `translate`
builds, hence `Option`). -/
structure Style where
  markerType : String
  markerFill : String
  markerFillOpacity : ℚ
  markerFillPatternFile : Option String
  markerLineColor : String
  markerLineWidth : ℚ
  markerLineOpacity : ℚ
  markerLineDasharray : List ℚ
  markerLinePatternFile : Option String
  markerWidth : ℚ
  markerHeight : ℚ
  markerDx : ℚ
  markerDy : ℚ
  markerRotation : Option ℚ
  deriving DecidableEq

/-- `VectorMarkerSymbolizer.prototype.translate` (lines 267-292): merge the
symbol definition with the documented defaults; a numeric `markerOpacity`
multiplies both resolved opacities. -/
def translate (s : Symbol) : Style :=
  let fillOpacity := getValueOrDefault s.markerFillOpacity 1
  let lineOpacity := getValueOrDefault s.markerLineOpacity 1
  { markerType := getValueOrDefault s.markerType "ellipse"
    markerFill := getValueOrDefault s.markerFill "#00f"
    markerFillOpacity :=
      match s.markerOpacity with
      | some o => fillOpacity * o
      | none => fillOpacity
    markerFillPatternFile := s.markerFillPatternFile
    markerLineColor := getValueOrDefault s.markerLineColor "#000"
    markerLineWidth := getValueOrDefault s.markerLineWidth 1
    markerLineOpacity :=
      match s.markerOpacity with
      | some o => lineOpacity * o
      | none => lineOpacity
    markerLineDasharray := getValueOrDefault s.markerLineDasharray []
    markerLinePatternFile := s.markerLinePatternFile
    markerWidth := getValueOrDefault s.markerWidth 10
    markerHeight := getValueOrDefault s.markerHeight 10
    markerDx := getValueOrDefault s.markerDx 0
    markerDy := getValueOrDefault s.markerDy 0
    markerRotation := none }

/-- The generic stroke-and-fill style derived by
`VectorMarkerSymbolizer.translateLineAndFill` (lines 294-311). -/
structure StrokeAndFill where
  lineColor : String
  linePatternFile : Option String
  lineWidth : ℚ
  lineOpacity : ℚ
  lineDasharray : Option (List ℚ)
  lineCap : String
  lineJoin : String
  polygonFill : String
  polygonPatternFile : Option String
  polygonOpacity : ℚ
  deriving DecidableEq

/-- `VectorMarkerSymbolizer.translateLineAndFill` (lines 294-311): project the
marker style onto generic line/fill fields; a zero line width forces the line
opacity to zero. -/
def translateLineAndFill (s : Style) : StrokeAndFill :=
  { lineColor := s.markerLineColor
    linePatternFile := s.markerLinePatternFile
    lineWidth := s.markerLineWidth
    lineOpacity := if s.markerLineWidth = 0 then 0 else s.markerLineOpacity
    lineDasharray := none
    lineCap := "butt"
    lineJoin := "round"
    polygonFill := s.markerFill
    polygonPatternFile := s.markerFillPatternFile
    polygonOpacity := s.markerFillOpacity }

/-- The symbolizer constructor (lines 26-31): padding is `[2, 2]` when
`lineWidth % 2 === 0` and `[3, 3]` otherwise. -/
def paddingOf (lineWidth : ℚ) : ℚ × ℚ :=
  if jsMod lineWidth 2 = 0 then (2, 2) else (3, 3)

/-- `VectorMarkerSymbolizer._stampSymbol` (lines 116-133): the identity stamp,
the listed style fields joined with an underscore. `markerLineDasharray` is an
array (defaulted to `[]`, which is truthy in JS), so it is always rendered via
`join(',')`; null pattern files render as the empty string. -/
def stampSymbol (s : Style) : String :=
  joinSep "_"
    [ s.markerType
    , s.markerFill
    , numStr s.markerFillOpacity
    , optStr s.markerFillPatternFile
    , s.markerLineColor
    , numStr s.markerLineWidth
    , numStr s.markerLineOpacity
    , joinSep "," (s.markerLineDasharray.map numStr)
    , optStr s.markerLinePatternFile
    , numStr s.markerWidth
    , numStr s.markerHeight ]

/-- Modelled from the spec: the `round` helper from `core/util` is not under
`src/`; section 4.4 of the spec specifies the image dimensions as ceilings, so
the helper is modelled as the ceiling function. -/
def round (q : ℚ) : ℤ :=
  ⌈q⌉

/-- The off-screen image dimensions computed by
`VectorMarkerSymbolizer._createMarkerImage` (lines 99-114):
`round(markerWidth + lineWidth + 2*shadow + padding[0]*2)` by
`round(markerHeight + lineWidth + 2*shadow + padding[1]*2)`, with the padding
derived from the line width in the constructor. -/
def createMarkerImageSize (mW mH lw shadow : ℚ) : ℤ × ℤ :=
  (round (mW + lw + 2 * shadow + (paddingOf lw).1 * 2),
   round (mH + lw + 2 * shadow + (paddingOf lw).2 * 2))

/-- `VectorMarkerSymbolizer._getAnchor` (lines 135-144): for bar/pie/pin the
anchor sits near the bottom of the image, otherwise at its center. `py` is
`this.padding[1]`, `lineWidth` is `this.strokeAndFill['lineWidth']` and
`shadow` is the geometry's `shadowBlur` option. -/
def getAnchor (markerType : String) (lineWidth shadow py : ℚ) (w h : ℚ) : ℚ × ℚ :=
  let t := jsToLower markerType
  if t = "bar" ∨ t = "pie" ∨ t = "pin" then
    (w / 2, h - py - lineWidth / 2 - shadow)
  else
    (w / 2, h / 2)

/-- One invocation recorded on the drawing surface. Geometric payloads are
omitted (no verified property depends on them); opacities and line-cap values
are kept. `save`/`rotate`/`restore` model the scoped rotation transform applied
by `PointSymbolizer._rotate` and `ctx.restore()`; `prepareCanvas` models
`Canvas.prepareCanvas`, which installs the stroke-and-fill state including the
style's line cap. -/
inductive SurfaceOp where
  | prepareCanvas (cap : String)
  | ellipse (lineOpacity fillOpacity : ℚ)
  | path (lineOpacity : ℚ)
  | polygon (lineOpacity fillOpacity : ℚ)
  | bezierCurveAndFill (lineOpacity fillOpacity : ℚ)
  | sector (lineOpacity fillOpacity : ℚ)
  | image
  | save
  | rotate
  | restore
  | setLineCap (cap : String)
  deriving DecidableEq

/-- The shared mutable surface state the verified properties are about: the
current line cap and the stack of states pushed by `ctx.save()` (the canvas
save stack also snapshots the line cap). -/
structure CtxState where
  cap : String
  stack : List String
  deriving DecidableEq

/-- Effect of one surface operation on the tracked state. An `restore` on an
empty save stack is a silent no-op, as on a 2D canvas. -/
def applyOp (c : CtxState) : SurfaceOp → CtxState
  | .prepareCanvas k => { c with cap := k }
  | .setLineCap k => { c with cap := k }
  | .save => { cap := c.cap, stack := c.cap :: c.stack }
  | .restore =>
      match c.stack with
      | [] => c
      | k :: rest => { cap := k, stack := rest }
  | _ => c

/-- Fold a trace of surface operations over the tracked state. -/
def applyOps (c : CtxState) (ops : List SurfaceOp) : CtxState :=
  ops.foldl applyOp c

/-- The marker kinds accepted by the `_drawVectorMarker` dispatch. -/
def supportedKinds : List String :=
  ["ellipse", "cross", "x", "diamond", "square", "bar", "triangle", "pin", "pie"]

/-- `VectorMarkerSymbolizer._drawVectorMarker` (lines 163-227) as a trace of
surface operations plus an optional raised error. `cap` is the surface's
current line cap at entry (`ctx.lineCap`), saved and re-assigned around the
pin/pie primitives. The gradient preparation branch is inactive because solid
color strings are never gradients. An unknown kind raises
`unsupported markerType`. -/
def drawVectorMarkerOps (st : Style) (sf : StrokeAndFill) (cap : String) :
    List SurfaceOp × Option String :=
  if jsToLower st.markerType = "ellipse" then
    ([.ellipse sf.lineOpacity sf.polygonOpacity], none)
  else if jsToLower st.markerType = "cross" ∨ jsToLower st.markerType = "x" then
    ([.path sf.lineOpacity, .path sf.lineOpacity], none)
  else if jsToLower st.markerType = "diamond" ∨ jsToLower st.markerType = "bar" ∨
      jsToLower st.markerType = "square" ∨ jsToLower st.markerType = "triangle" then
    ([.polygon sf.lineOpacity sf.polygonOpacity], none)
  else if jsToLower st.markerType = "pin" then
    ([.setLineCap "round", .bezierCurveAndFill sf.lineOpacity sf.polygonOpacity,
      .setLineCap cap], none)
  else if jsToLower st.markerType = "pie" then
    ([.setLineCap "round", .sector sf.lineOpacity sf.polygonOpacity,
      .setLineCap cap], none)
  else
    ([], some ("unsupported markerType: " ++ jsToLower st.markerType))

/-- Modelled from the spec: `PointSymbolizer._rotate` is not under `src/`; per
section 4.6 a defined per-instance rotation saves the surface state and rotates
about the point before the draw (`none` covers both an undefined and a falsy
zero angle). -/
def rotateOps : Option ℚ → List SurfaceOp
  | some _ => [.save, .rotate]
  | none => []

/-- The conditional `ctx.restore()` closing a rotation scope: present exactly
when the instance had a defined rotation. -/
def restoreOps : Option ℚ → List SurfaceOp
  | some _ => [.restore]
  | none => []

/-- The per-instance loop of `VectorMarkerSymbolizer._drawMarkers`
(lines 63-74): each instance applies its rotation scope, draws the vector
marker, and pops the scope. The `ctx.restore()` statement is reached only when
`_drawVectorMarker` returns normally; a raised error aborts the loop and
propagates. `cap` is the line cap installed by `prepareCanvas`. The loop runs
over the instances' rotation angles (indexes descending in the source; point
payloads are not traced). -/
def drawMarkersLoop (st : Style) (sf : StrokeAndFill) (cap : String) :
    List (Option ℚ) → List SurfaceOp × Option String
  | [] => ([], none)
  | r :: rest =>
      let rops := rotateOps r
      let dvm := drawVectorMarkerOps st sf cap
      match dvm.2 with
      | some e => (rops ++ dvm.1, some e)
      | none =>
          let tail := drawMarkersLoop st sf cap rest
          (rops ++ dvm.1 ++ restoreOps r ++ tail.1, tail.2)

/-- `VectorMarkerSymbolizer._drawMarkers` (lines 56-75): prepare the canvas
once for non-gradient styles (always, in the solid-color model), then run the
per-instance loop. -/
def drawMarkers (st : Style) (sf : StrokeAndFill) (instances : List (Option ℚ)) :
    List SurfaceOp × Option String :=
  let loop := drawMarkersLoop st sf sf.lineCap instances
  (.prepareCanvas sf.lineCap :: loop.1, loop.2)

/-- The blit loop of `VectorMarkerSymbolizer._drawMarkersWithCache`
(lines 85-96): per instance, the rotation scope around a `Canvas.image` blit. -/
def blitLoop : List (Option ℚ) → List SurfaceOp
  | [] => []
  | r :: rest => rotateOps r ++ [.image] ++ restoreOps r ++ blitLoop rest

/-- `VectorMarkerSymbolizer._createMarkerImage` (lines 99-114) restricted to
its surface operations: prepare the fresh off-screen context (non-gradient
fast path) and draw one marker into it at the computed anchor. -/
def createMarkerImageOps (st : Style) (sf : StrokeAndFill) :
    List SurfaceOp × Option String :=
  let dvm := drawVectorMarkerOps st sf sf.lineCap
  (.prepareCanvas sf.lineCap :: dvm.1, dvm.2)

/-- `VectorMarkerSymbolizer._drawMarkersWithCache` (lines 77-97): the resource
pool is modelled as the list of registered stamps. On a miss the off-screen
image is rasterized and registered under the style's stamp; a raised error
propagates before `addResource` runs, leaving the pool unchanged. Returns
(trace, error, pool after). -/
def drawMarkersWithCache (st : Style) (sf : StrokeAndFill) (res : List String)
    (instances : List (Option ℚ)) :
    List SurfaceOp × Option String × List String :=
  let stamp := stampSymbol st
  if stamp ∈ res then
    (blitLoop instances, none, res)
  else
    let mk := createMarkerImageOps st sf
    match mk.2 with
    | some e => (mk.1, some e, res)
    | none => (mk.1 ++ blitLoop instances, none, stamp :: res)

/-- JS property read of a numeric field on the translated style object
(`this.style`), by key: keys the `translate` result does not carry — notably
`polygonOpacity` and `lineOpacity`, which exist only on `strokeAndFill` —
yield `undefined`, modelled as `none`. -/
def styleNumField (s : Style) : String → Option ℚ
  | "markerWidth" => some s.markerWidth
  | "markerHeight" => some s.markerHeight
  | "markerFillOpacity" => some s.markerFillOpacity
  | "markerLineOpacity" => some s.markerLineOpacity
  | "markerLineWidth" => some s.markerLineWidth
  | "markerDx" => some s.markerDx
  | "markerDy" => some s.markerDy
  | _ => none

/-- The JS strict comparison `v === 0` on a possibly-undefined numeric value:
false when the value is `undefined`. -/
def jsIsZero (v : Option ℚ) : Bool :=
  v = some 0

/-- `VectorMarkerSymbolizer.symbolize` (lines 34-54). The guard is the literal
source condition, including its reads of `style['polygonOpacity']` and
`style['lineOpacity']` through `styleNumField` (those keys are absent on the
translated style object). `live` abbreviates the four live-draw conditions
(spriting, layer mask, data-driven style, caching disabled); `instances` is
the cooked points paired with their per-index rotation angles (the non-rotation
payload is not traced); `res` is the resource pool. `_prepareContext` is an
external context setup on `PointSymbolizer` and issues no drawing primitive.
Returns (trace, error, pool after). -/
def symbolize (st : Style) (instances : List (Option ℚ)) (live : Bool)
    (res : List String) : List SurfaceOp × Option String × List String :=
  if jsIsZero (styleNumField st "markerWidth") ∨
      jsIsZero (styleNumField st "markerHeight") ∨
      (jsIsZero (styleNumField st "polygonOpacity") ∧
        jsIsZero (styleNumField st "lineOpacity")) then
    ([], none, res)
  else if instances = [] then
    ([], none, res)
  else
    let sf := translateLineAndFill st
    if live then
      let dm := drawMarkers st sf instances
      (dm.1, dm.2, res)
    else
      drawMarkersWithCache st sf res instances

/-- A surface-space point, as used by the renderer geometry. Coordinates are
real because the pin shape uses `Math.atan` and vector normalization uses
`Math.sqrt`. -/
abbrev RPoint : Type := ℝ × ℝ

/-- `Point.substract` (external `geo/Point`, componentwise subtraction). -/
def psub (a b : RPoint) : RPoint :=
  (a.1 - b.1, a.2 - b.2)

/-- `Point.add` (componentwise addition). -/
def padd (a b : RPoint) : RPoint :=
  (a.1 + b.1, a.2 + b.2)

/-- `Point.multi` (scalar multiplication). -/
def pmult (a : RPoint) (n : ℝ) : RPoint :=
  (a.1 * n, a.2 * n)

/-- `Point.mag`: the Euclidean magnitude. -/
noncomputable def plen (a : RPoint) : ℝ :=
  Real.sqrt (a.1 ^ 2 + a.2 ^ 2)

/-- `Point._unit`: divide both components by the magnitude. -/
noncomputable def punit (a : RPoint) : RPoint :=
  (a.1 / plen a, a.2 / plen a)

/-- Modelled from the spec: the perpendicular rotation used by `Point._perp`
(external `geo/Point`); section 4.5 only requires a perpendicular of the unit
direction, here the counterclockwise quarter turn. -/
def pperp (a : RPoint) : RPoint :=
  (-a.2, a.1)

/-- `VectorMarkerSymbolizer._getVectorPoints` (lines 313-364): closed-form
local-space vertices per marker kind; kinds without a vertex form (ellipse,
pie, anything unrecognized) yield the empty list. `left` and `top` are 0 in
the source. -/
noncomputable def getVectorPoints (markerType : String) (width height : ℚ) :
    List RPoint :=
  let hh : ℝ := (height : ℝ) / 2
  let hw : ℝ := (width : ℝ) / 2
  if markerType = "triangle" then
    [(0, -hh), (-hw, hh), (hw, hh)]
  else if markerType = "cross" then
    [(-hw, 0), (hw, 0), (0, -hh), (0, hh)]
  else if markerType = "diamond" then
    [(-hw, 0), (0, -hh), (hw, 0), (0, hh)]
  else if markerType = "square" then
    [(-hw, hh), (hw, hh), (hw, -hh), (-hw, -hh)]
  else if markerType = "x" then
    [(-hw, hh), (hw, -hh), (hw, hh), (-hw, -hh)]
  else if markerType = "bar" then
    [(-hw, -(height : ℝ)), (hw, -(height : ℝ)), (hw, 0), (-hw, 0)]
  else if markerType = "pin" then
    let extWidth : ℝ := (height : ℝ) * Real.arctan (hw / hh)
    [(0, 0), (-extWidth, -(height : ℝ)), (extWidth, -(height : ℝ)), (0, 0)]
  else
    []

/-- `LineString._getArrowPoints` (VectorRenderer.js lines 57-72): the closed
arrowhead kite for a segment ending at `point`, coming from `prePoint`. The
source's in-place `_perp`/`_multi` mutations are unfolded into pure bindings.
`tolerance` is already defaulted to 0 by the caller when absent. -/
noncomputable def getArrowPoints (prePoint point : RPoint) (lineWidth : ℝ)
    (arrowStyle : ℝ × ℝ) (tolerance : ℝ) : List RPoint :=
  let width := lineWidth * arrowStyle.1
  let height := lineWidth * arrowStyle.2 + tolerance
  let hw := width / 2 + tolerance
  let normal := punit (psub point prePoint)
  let p1 := psub point (pmult normal height)
  let n2 := pperp normal
  let p0 := padd p1 (pmult n2 hw)
  let n3 := pmult n2 (-1)
  let p2 := padd p1 (pmult n3 hw)
  [p0, point, p2, p0]

/-- The arrow polygon as worded by spec section 4.5: back-tip `height` back
from the tip along the unit direction, wings offset plus and minus `halfWidth`
along the perpendicular from the back-tip, returned as the closed kite
`[wing0, tip, wing1, wing0]`. Stated separately to compare the source
computation against the spec's words. -/
noncomputable def computeArrowPolygonSpec (prePoint point : RPoint)
    (lineWidth : ℝ) (arrowStyle : ℝ × ℝ) (tolerance : ℝ) : List RPoint :=
  let width := lineWidth * arrowStyle.1
  let height := lineWidth * arrowStyle.2 + tolerance
  let hw := width / 2 + tolerance
  let u := punit (psub point prePoint)
  let back := psub point (pmult u height)
  let wing0 := padd back (pmult (pperp u) hw)
  let wing1 := psub back (pmult (pperp u) hw)
  [wing0, point, wing1, wing0]

/-- A path argument to `_getArrows`: either a flat point array or an array of
sub-paths (the anti-meridian split), mirroring the dynamic
`Array.isArray(points[0])` test. -/
inductive PathInput where
  | flat (ps : List RPoint)
  | split (segs : List (List RPoint))

/-- The JS `points.length` of the path argument. -/
def pathLen : PathInput → Nat
  | .flat ps => ps.length
  | .split segs => segs.length

/-- The `segments` binding of `_getArrows`: the split sub-paths, or the whole
path as a single segment. -/
def segmentsOf : PathInput → List (List RPoint)
  | .flat ps => [ps]
  | .split segs => segs

/-- JS array indexing inside `_getArrows`; an out-of-range index yields
`undefined`, modelled by a junk origin point (unreachable under the claims'
length hypotheses). -/
def jsIdx (l : List RPoint) (i : Nat) : RPoint :=
  l.getD i (0, 0)

/-- The arrows contributed by one path segment in `_getArrows`
(lines 107-116): an independent check for `vertex-first`/`vertex-firstlast`,
then an if/else-if chain for `vertex-last`/`vertex-firstlast` versus the
per-vertex `point` loop. -/
noncomputable def segArrows (placement : String) (seg : List RPoint)
    (lineWidth : ℝ) (arrowStyle : ℝ × ℝ) (tolerance : ℝ) : List (List RPoint) :=
  (if placement = "vertex-first" ∨ placement = "vertex-firstlast" then
    [getArrowPoints (jsIdx seg 1) (jsIdx seg 0) lineWidth arrowStyle tolerance]
  else []) ++
  (if placement = "vertex-last" ∨ placement = "vertex-firstlast" then
    [getArrowPoints (jsIdx seg (seg.length - 2)) (jsIdx seg (seg.length - 1))
      lineWidth arrowStyle tolerance]
  else if placement = "point" then
    (List.range (seg.length - 1)).map fun ii =>
      getArrowPoints (jsIdx seg ii) (jsIdx seg (ii + 1)) lineWidth arrowStyle tolerance
  else [])

/-- `LineString._getArrows` (lines 97-119): null when there is no arrow style
or fewer than two entries in the path argument; otherwise the per-segment
arrows accumulated over the segments in reverse order, and null again when no
arrow was produced. -/
noncomputable def getArrows (arrowStyle : Option (ℝ × ℝ)) (placement : String)
    (input : PathInput) (lineWidth tolerance : ℝ) : Option (List (List RPoint)) :=
  match arrowStyle with
  | none => none
  | some as =>
      if pathLen input < 2 then none
      else
        let arrows := (segmentsOf input).reverse.flatMap fun seg =>
          segArrows placement seg lineWidth as tolerance
        if arrows.isEmpty then none else some arrows

/-- A symbol whose only settings are both opacities zero, used to evaluate the
symbolize guard at the input the opacity short-circuit claim is about. -/
def zeroOpacitySymbol : Symbol :=
  { markerFillOpacity := some 0, markerLineOpacity := some 0 }

/-! Helper lemmas shared by the claim theorems. -/

/-- Folding a concatenated trace folds the pieces in order. -/
theorem applyOps_append (c : CtxState) (a b : List SurfaceOp) :
    applyOps c (a ++ b) = applyOps (applyOps c a) b := by
  simp [applyOps, List.foldl_append]

/-- The draw dispatch errors exactly on kinds outside the supported set. -/
theorem dvm_err_iff (st : Style) (sf : StrokeAndFill) (cap : String) :
    (drawVectorMarkerOps st sf cap).2.isSome ↔
      jsToLower st.markerType ∉ supportedKinds := by
  unfold drawVectorMarkerOps
  split_ifs with hc1 hc2 hc3 hc4 hc5
  · simp [supportedKinds, hc1]
  · rcases hc2 with hc2 | hc2 <;> simp [supportedKinds, hc2]
  · rcases hc3 with hc3 | hc3 | hc3 | hc3 <;> simp [supportedKinds, hc3]
  · simp [supportedKinds, hc4]
  · simp [supportedKinds, hc5]
  · push_neg at hc2 hc3
    simp [supportedKinds, hc1, hc2.1, hc2.2, hc3.1, hc3.2.1, hc3.2.2.1,
      hc3.2.2.2, hc4, hc5]

/-- The JS parity test `q % 2 === 0` holds exactly on even integers. -/
theorem jsMod_two_eq_zero_iff (q : ℚ) : jsMod q 2 = 0 ↔ ∃ k : ℤ, q = 2 * k := by
  constructor
  · intro h
    refine ⟨jsTrunc (q / 2), ?_⟩
    have h' : q - 2 * (jsTrunc (q / 2) : ℚ) = 0 := h
    linarith
  · rintro ⟨k, rfl⟩
    have h2 : (2 : ℚ) * k / 2 = (k : ℚ) := by ring
    rcases le_or_lt 0 ((k : ℚ)) with hk | hk
    · simp [jsMod, jsTrunc, h2, hk, Int.floor_intCast]
    · simp [jsMod, jsTrunc, h2, not_le.2 hk, Int.ceil_intCast]

/-- Left cancellation for string concatenation. -/
theorem string_append_left_cancel {a x y : String} (h : a ++ x = a ++ y) : x = y := by
  have hd := congrArg String.data h
  simp only [String.data_append] at hd
  exact String.ext (List.append_cancel_left hd)

/-- Right cancellation for string concatenation. -/
theorem string_append_right_cancel {x y b : String} (h : x ++ b = y ++ b) : x = y := by
  have hd := congrArg String.data h
  simp only [String.data_append] at hd
  exact String.ext (List.append_cancel_right hd)

/-! Claim theorems. -/

/-- Claim C7: the anchor computation returns
`(w/2, h - bottomPadding - lineWidth/2 - shadowBlur)` when the marker kind is
bar, pie, or pin, and `(w/2, h/2)` for every other kind. -/
theorem getAnchor_spec (kind : String) (lw sh py w h : ℚ) :
    (jsToLower kind = "bar" ∨ jsToLower kind = "pie" ∨ jsToLower kind = "pin" →
      getAnchor kind lw sh py w h = (w / 2, h - py - lw / 2 - sh)) ∧
    (¬(jsToLower kind = "bar" ∨ jsToLower kind = "pie" ∨ jsToLower kind = "pin") →
      getAnchor kind lw sh py w h = (w / 2, h / 2)) := by
  unfold getAnchor
  constructor
  · intro hk
    simp [hk]
  · intro hk
    simp [hk]

/-- Witness for C7: a bar marker with line width 2, shadow 0, bottom padding 2
in a 16 by 26 image anchors at `(8, 23)`; an ellipse anchors at the center. -/
theorem getAnchor_spec_witness :
    getAnchor "bar" 2 0 2 16 26 = (8, 23) ∧
    getAnchor "ellipse" 2 0 2 16 26 = (8, 13) := by
  constructor
  · have h := (getAnchor_spec "bar" 2 0 2 16 26).1 (by decide)
    rw [h]
    norm_num
  · have h := (getAnchor_spec "ellipse" 2 0 2 16 26).2 (by decide)
    rw [h]
    norm_num

/-- Claim C10: the shape-vertex generator is total; it returns a vertex list
of the documented length for the seven vertex-based kinds and the empty list
for ellipse, pie, and any unrecognized kind string (being a total function, it
raises no error itself; the unsupported-kind failure lives in the draw
dispatch, see C9). -/
theorem getVectorPoints_total (kind : String) (w h : ℚ) :
    (kind = "triangle" → (getVectorPoints kind w h).length = 3) ∧
    (kind = "cross" ∨ kind = "diamond" ∨ kind = "square" ∨ kind = "x" ∨
        kind = "bar" ∨ kind = "pin" →
      (getVectorPoints kind w h).length = 4) ∧
    (kind ∉ ["triangle", "cross", "diamond", "square", "x", "bar", "pin"] →
      getVectorPoints kind w h = []) := by
  refine ⟨?_, ?_, ?_⟩
  · rintro rfl
    rfl
  · rintro (rfl | rfl | rfl | rfl | rfl | rfl) <;> rfl
  · intro hk
    simp only [List.mem_cons, List.not_mem_nil, or_false, not_or] at hk
    obtain ⟨h1, h2, h3, h4, h5, h6, h7⟩ := hk
    simp [getVectorPoints, h1, h2, h3, h4, h5, h6, h7]

/-- Witness for C10: the pin kind yields 4 vertices, the pie kind yields none. -/
theorem getVectorPoints_total_witness :
    (getVectorPoints "pin" 4 6).length = 4 ∧ getVectorPoints "pie" 4 6 = [] := by
  exact ⟨(getVectorPoints_total "pin" 4 6).2.1 (by decide),
    (getVectorPoints_total "pie" 4 6).2.2 (by decide)⟩

/-- Claim C8: resolving a Style from an empty symbol definition and deriving
the stroke-and-fill style yields lineOpacity 1, polygonOpacity 1,
lineColor `#000`, polygonFill `#00f`, markerWidth 10 and markerHeight 10; and
for every resolved Style the derived lineOpacity is forced to 0 exactly when
the resolved line width is 0. -/
theorem translate_roundtrip :
    (translateLineAndFill (translate {})).lineOpacity = 1 ∧
    (translateLineAndFill (translate {})).polygonOpacity = 1 ∧
    (translateLineAndFill (translate {})).lineColor = "#000" ∧
    (translateLineAndFill (translate {})).polygonFill = "#00f" ∧
    (translate {}).markerWidth = 10 ∧
    (translate {}).markerHeight = 10 ∧
    ∀ s : Style, (translateLineAndFill s).lineOpacity =
      if s.markerLineWidth = 0 then 0 else s.markerLineOpacity := by
  refine ⟨?_, rfl, rfl, rfl, rfl, rfl, fun s => rfl⟩
  decide

/-- Witness for C8: a symbol whose only setting is a zero line width derives a
zero line opacity. -/
theorem translate_roundtrip_witness :
    (translateLineAndFill (translate { markerLineWidth := some 0 })).lineOpacity = 0 := by
  have h := translate_roundtrip.2.2.2.2.2.2 (translate { markerLineWidth := some 0 })
  rw [h]
  decide

/-- Claim C3: on a marker-image cache miss the off-screen image is allocated
with width `ceil(markerWidth + lineWidth + 2*shadowBlur + 2*paddingX)` and
height `ceil(markerHeight + lineWidth + 2*shadowBlur + 2*paddingY)`, where the
padding is `(2,2)` when the line width is an even integer and `(3,3)`
otherwise. -/
theorem createMarkerImage_size (mW mH lw sh : ℚ) :
    createMarkerImageSize mW mH lw sh =
      (⌈mW + lw + 2 * sh + 2 * (paddingOf lw).1⌉,
       ⌈mH + lw + 2 * sh + 2 * (paddingOf lw).2⌉) ∧
    ((∃ k : ℤ, lw = 2 * k) → paddingOf lw = (2, 2)) ∧
    ((¬∃ k : ℤ, lw = 2 * k) → paddingOf lw = (3, 3)) := by
  refine ⟨?_, ?_, ?_⟩
  · simp only [createMarkerImageSize, round, Prod.mk.injEq]
    constructor <;> (congr 1; ring)
  · intro hk
    rw [paddingOf, if_pos ((jsMod_two_eq_zero_iff lw).2 hk)]
  · intro hk
    rw [paddingOf, if_neg (fun hm => hk ((jsMod_two_eq_zero_iff lw).1 hm))]

/-- Witness for C3: an even line width of 2 with a 10 by 10 marker and no
shadow allocates a 16 by 16 image with padding `(2,2)`. -/
theorem createMarkerImage_size_witness :
    paddingOf 2 = (2, 2) ∧ createMarkerImageSize 10 10 2 0 = (16, 16) := by
  have h := createMarkerImage_size 10 10 2 0
  have hp : paddingOf 2 = (2, 2) := h.2.1 ⟨1, by norm_num⟩
  refine ⟨hp, ?_⟩
  rw [h.1, hp]
  norm_num

/-- Claim C2: the identity stamp is a pure function of the visual-affecting
style fields; two resolved Styles differing only in markerDx, markerDy, or
rotation have identical stamps, and two differing only in markerFill have
different stamps. -/
theorem stampSymbol_pure (s : Style) (d1 d2 : ℚ) (r : Option ℚ) (f1 f2 : String) :
    stampSymbol { s with markerDx := d1, markerDy := d2, markerRotation := r } =
      stampSymbol s ∧
    (f1 ≠ f2 →
      stampSymbol { s with markerFill := f1 } ≠ stampSymbol { s with markerFill := f2 }) := by
  constructor
  · rfl
  · intro hne heq
    apply hne
    have hd := congrArg String.data heq
    simp only [stampSymbol, joinSep, String.data_append, List.append_assoc] at hd
    have h1 := List.append_cancel_left hd
    have h2 := List.append_cancel_left h1
    exact String.ext (List.append_cancel_right h2)

/-- Witness for C2: shifting the default style by `markerDx = 5` keeps its
stamp; recoloring the fill to `#f00` changes it. -/
theorem stampSymbol_pure_witness :
    stampSymbol { translate {} with markerDx := 5, markerDy := 0, markerRotation := none } =
      stampSymbol (translate {}) ∧
    stampSymbol { translate {} with markerFill := "#f00" } ≠
      stampSymbol { translate {} with markerFill := "#00f" } := by
  exact ⟨(stampSymbol_pure (translate {}) 5 0 none "#f00" "#00f").1,
    (stampSymbol_pure (translate {}) 5 0 none "#f00" "#00f").2 (by decide)⟩

/-- Claim C1, evaluated at the deciding inputs. The width and height guards do
early-exit with an empty trace, but the both-opacities-zero guard never fires:
`symbolize` reads `style['polygonOpacity']` and `style['lineOpacity']` from the
translated marker style object, which carries no such keys (they exist only on
`strokeAndFill`), so `undefined === 0` is false and a style with both resolved
opacities 0 still issues drawing-surface calls. -/
theorem symbolize_opacity_guard :
    (symbolize (translate { markerWidth := some 0 }) [none] true []).1 = [] ∧
    (symbolize (translate { markerHeight := some 0 }) [none] true []).1 = [] ∧
    (translate zeroOpacitySymbol).markerFillOpacity = 0 ∧
    (translateLineAndFill (translate zeroOpacitySymbol)).lineOpacity = 0 ∧
    (symbolize (translate zeroOpacitySymbol) [none] true []).1 ≠ [] := by
  refine ⟨?_, ?_, ?_, ?_, ?_⟩ <;> decide

/-- Error-free vector-marker draws do not raise in the per-instance loop. -/
theorem drawMarkersLoop_noerr (st : Style) (sf : StrokeAndFill) (cap : String)
    (h : (drawVectorMarkerOps st sf cap).2 = none) :
    ∀ instances : List (Option ℚ), (drawMarkersLoop st sf cap instances).2 = none := by
  intro instances
  induction instances with
  | nil => rfl
  | cons r rest ih => simp [drawMarkersLoop, h, ih]

/-- Claim C9: drawing one marker instance raises the unsupported-marker-kind
error exactly when the (lowercased) kind is outside
`{ellipse, cross, x, diamond, square, bar, triangle, pin, pie}`; when the
error is raised on the cached path, the resource pool is left unchanged (the
image is never registered); and for every kind in the set, the error branch is
unreachable for the whole instance loop. -/
theorem drawVectorMarker_unsupported (st : Style) (cap : String)
    (res : List String) (instances : List (Option ℚ)) :
    ((drawVectorMarkerOps st (translateLineAndFill st) cap).2.isSome ↔
      jsToLower st.markerType ∉ supportedKinds) ∧
    ((drawMarkersWithCache st (translateLineAndFill st) res instances).2.1.isSome →
      (drawMarkersWithCache st (translateLineAndFill st) res instances).2.2 = res) ∧
    (jsToLower st.markerType ∈ supportedKinds →
      (drawMarkers st (translateLineAndFill st) instances).2 = none) := by
  refine ⟨dvm_err_iff st (translateLineAndFill st) cap, ?_, ?_⟩
  · intro herr
    by_cases hs : stampSymbol st ∈ res
    · simp [drawMarkersWithCache, hs] at herr
    · cases hmk : (createMarkerImageOps st (translateLineAndFill st)).2 with
      | some e => simp [drawMarkersWithCache, hs, hmk]
      | none => simp [drawMarkersWithCache, hs, hmk] at herr
  · intro hmem
    have hnone : (drawVectorMarkerOps st (translateLineAndFill st)
        (translateLineAndFill st).lineCap).2 = none := by
      rcases hv : (drawVectorMarkerOps st (translateLineAndFill st)
          (translateLineAndFill st).lineCap).2 with _ | e
      · rfl
      · exact absurd hmem
          ((dvm_err_iff st (translateLineAndFill st)
            (translateLineAndFill st).lineCap).1 (by rw [hv]; rfl))
    show (drawMarkersLoop st (translateLineAndFill st)
      (translateLineAndFill st).lineCap instances).2 = none
    exact drawMarkersLoop_noerr st (translateLineAndFill st) _ hnone instances

/-- Witness for C9: a `star` marker on the cached path raises and leaves the
pool empty; the default ellipse marker draws the whole loop without error. -/
theorem drawVectorMarker_unsupported_witness :
    (drawMarkersWithCache (translate { markerType := some "star" })
        (translateLineAndFill (translate { markerType := some "star" })) [] [none]).2.2 = [] ∧
    (drawMarkers (translate {}) (translateLineAndFill (translate {})) [none]).2 = none := by
  exact ⟨(drawVectorMarker_unsupported (translate { markerType := some "star" })
      "butt" [] [none]).2.1 (by decide),
    (drawVectorMarker_unsupported (translate {}) "butt" [] [none]).2.2 (by decide)⟩

/-- A successful `_drawVectorMarker` leaves the tracked surface state exactly
as it found it, provided the saved line cap it re-assigns is the current one. -/
theorem applyOps_drawVectorMarker (st : Style) (sf : StrokeAndFill) (cap : String)
    (c : CtxState) (hcap : c.cap = cap)
    (h : (drawVectorMarkerOps st sf cap).2 = none) :
    applyOps c (drawVectorMarkerOps st sf cap).1 = c := by
  subst hcap
  unfold drawVectorMarkerOps at h ⊢
  split_ifs at h ⊢ <;> (cases c; rfl)

/-- Loop lemma: an error-free run of the per-instance draw loop restores the
tracked surface state (save stack and line cap) exactly. -/
theorem applyOps_drawMarkersLoop (st : Style) (sf : StrokeAndFill) (cap : String) :
    ∀ (instances : List (Option ℚ)) (c : CtxState), c.cap = cap →
      (drawMarkersLoop st sf cap instances).2 = none →
      applyOps c (drawMarkersLoop st sf cap instances).1 = c := by
  intro instances
  induction instances with
  | nil => intro c _ _; rfl
  | cons r rest ih =>
    intro c hc herr
    cases hd : (drawVectorMarkerOps st sf cap).2 with
    | some e => simp [drawMarkersLoop, hd] at herr
    | none =>
      have herr' : (drawMarkersLoop st sf cap rest).2 = none := by
        simpa [drawMarkersLoop, hd] using herr
      have hstep : (drawMarkersLoop st sf cap (r :: rest)).1 =
          rotateOps r ++ ((drawVectorMarkerOps st sf cap).1 ++
            (restoreOps r ++ (drawMarkersLoop st sf cap rest).1)) := by
        simp [drawMarkersLoop, hd]
      rw [hstep, applyOps_append, applyOps_append, applyOps_append]
      cases r with
      | none =>
        have hrot : applyOps c (rotateOps none) = c := rfl
        rw [hrot, applyOps_drawVectorMarker st sf cap c hc hd]
        exact ih c hc herr'
      | some a =>
        have hrot : applyOps c (rotateOps (some a)) =
            { cap := c.cap, stack := c.cap :: c.stack } := rfl
        rw [hrot, applyOps_drawVectorMarker st sf cap
          { cap := c.cap, stack := c.cap :: c.stack } hc hd]
        have hrest : applyOps { cap := c.cap, stack := c.cap :: c.stack }
            (restoreOps (some a)) = c := by
          cases c
          rfl
        rw [hrest]
        exact ih c hc herr'

/-- Claim C5, amended: on every error-free exit of the live draw loop the
rotation save/restore scopes are balanced and the pin/pie line-cap override is
restored, leaving the save stack as before and the line cap at the value
`prepareCanvas` installed; the counterexample theorem shows the error exit
path does not restore the rotation transform. -/
theorem drawMarkers_restores_state (st : Style) (instances : List (Option ℚ))
    (c0 : CtxState)
    (h : (drawMarkers st (translateLineAndFill st) instances).2 = none) :
    applyOps c0 (drawMarkers st (translateLineAndFill st) instances).1 =
      { cap := (translateLineAndFill st).lineCap, stack := c0.stack } := by
  have hloop : (drawMarkersLoop st (translateLineAndFill st)
      (translateLineAndFill st).lineCap instances).2 = none := h
  show applyOps c0 (SurfaceOp.prepareCanvas (translateLineAndFill st).lineCap ::
    (drawMarkersLoop st (translateLineAndFill st)
      (translateLineAndFill st).lineCap instances).1) = _
  rw [applyOps, List.foldl_cons, ← applyOps]
  exact applyOps_drawMarkersLoop st (translateLineAndFill st) _ instances
    { cap := (translateLineAndFill st).lineCap, stack := c0.stack } rfl hloop

/-- Witness for the amended C5: one rotated ellipse instance ends with the
initial save stack and the prepared butt line cap. -/
theorem drawMarkers_restores_state_witness :
    applyOps { cap := "round", stack := [] }
      (drawMarkers (translate {}) (translateLineAndFill (translate {})) [some 1]).1 =
      { cap := "butt", stack := [] } := by
  exact drawMarkers_restores_state (translate {}) [some 1]
    { cap := "round", stack := [] } (by decide)

/-- Counterexample for C5 as stated: with an unsupported kind, the draw call
inside the rotation scope raises, `ctx.restore()` is skipped (there is no
try/finally), and the saved state leaks: the trace raises an error, yet the
surface state after it differs from the prior state. -/
theorem drawMarkers_error_leaks_transform :
    ((drawMarkers (translate { markerType := some "star" })
        (translateLineAndFill (translate { markerType := some "star" }))
        [some 1]).2).isSome = true ∧
    applyOps { cap := "butt", stack := [] }
        (drawMarkers (translate { markerType := some "star" })
          (translateLineAndFill (translate { markerType := some "star" }))
          [some 1]).1 ≠
      { cap := "butt", stack := [] } := by
  refine ⟨?_, ?_⟩ <;> decide

/-- The length of a flat-map producing two entries per element. -/
theorem flatMap_pairs_length {α β : Type} (l : List α) (f g : α → List β) :
    (l.flatMap fun x => [f x, g x]).length = 2 * l.length := by
  induction l with
  | nil => rfl
  | cons a t ih =>
      simp only [List.flatMap_cons, List.length_append, List.length_cons,
        List.length_nil, ih]
      ring

/-- Claim C4: with placement `vertex-firstlast` the first-vertex check and the
last-vertex check both fire independently, so each segment contributes exactly
two arrows — one at the first vertex oriented from the second vertex back to
the first, one at the last vertex — and the `point`-mode per-vertex else
branch never executes (the result is exactly the two arrows per segment, in
reverse segment order). -/
theorem getArrows_vertex_firstlast (as : ℝ × ℝ) (input : PathInput) (lw tol : ℝ)
    (h2 : 2 ≤ pathLen input) :
    getArrows (some as) "vertex-firstlast" input lw tol =
      some ((segmentsOf input).reverse.flatMap fun seg =>
        [getArrowPoints (jsIdx seg 1) (jsIdx seg 0) lw as tol,
         getArrowPoints (jsIdx seg (seg.length - 2)) (jsIdx seg (seg.length - 1))
           lw as tol]) ∧
    ((getArrows (some as) "vertex-firstlast" input lw tol).getD []).length =
      2 * (segmentsOf input).length := by
  have hseg : ∀ seg : List RPoint, segArrows "vertex-firstlast" seg lw as tol =
      [getArrowPoints (jsIdx seg 1) (jsIdx seg 0) lw as tol,
       getArrowPoints (jsIdx seg (seg.length - 2)) (jsIdx seg (seg.length - 1))
         lw as tol] := by
    intro seg
    simp [segArrows]
  have hn : 1 ≤ (segmentsOf input).length := by
    cases input with
    | flat ps => simp [segmentsOf]
    | split segs =>
        have hlen2 : 2 ≤ segs.length := h2
        show 1 ≤ segs.length
        omega
  have hlen : ((segmentsOf input).reverse.flatMap fun seg =>
      [getArrowPoints (jsIdx seg 1) (jsIdx seg 0) lw as tol,
       getArrowPoints (jsIdx seg (seg.length - 2)) (jsIdx seg (seg.length - 1))
         lw as tol]).length = 2 * (segmentsOf input).length := by
    rw [flatMap_pairs_length, List.length_reverse]
  have hne : ((segmentsOf input).reverse.flatMap fun seg =>
      [getArrowPoints (jsIdx seg 1) (jsIdx seg 0) lw as tol,
       getArrowPoints (jsIdx seg (seg.length - 2)) (jsIdx seg (seg.length - 1))
         lw as tol]) ≠ [] := by
    intro h0
    rw [h0] at hlen
    simp only [List.length_nil] at hlen
    omega
  have hisE : ((segmentsOf input).reverse.flatMap fun seg =>
      [getArrowPoints (jsIdx seg 1) (jsIdx seg 0) lw as tol,
       getArrowPoints (jsIdx seg (seg.length - 2)) (jsIdx seg (seg.length - 1))
         lw as tol]).isEmpty = false := by
    cases hL : ((segmentsOf input).reverse.flatMap fun seg =>
        [getArrowPoints (jsIdx seg 1) (jsIdx seg 0) lw as tol,
         getArrowPoints (jsIdx seg (seg.length - 2)) (jsIdx seg (seg.length - 1))
           lw as tol]) with
    | nil => exact absurd hL hne
    | cons a t => rfl
  have hmain : getArrows (some as) "vertex-firstlast" input lw tol =
      some ((segmentsOf input).reverse.flatMap fun seg =>
        [getArrowPoints (jsIdx seg 1) (jsIdx seg 0) lw as tol,
         getArrowPoints (jsIdx seg (seg.length - 2)) (jsIdx seg (seg.length - 1))
           lw as tol]) := by
    show (if pathLen input < 2 then none
      else
        if ((segmentsOf input).reverse.flatMap fun seg =>
            segArrows "vertex-firstlast" seg lw as tol).isEmpty then none
        else some ((segmentsOf input).reverse.flatMap fun seg =>
          segArrows "vertex-firstlast" seg lw as tol)) = _
    rw [if_neg (by omega : ¬pathLen input < 2)]
    simp only [hseg, hisE]
    rfl
  refine ⟨hmain, ?_⟩
  rw [hmain]
  exact hlen

/-- Witness for C4: a single two-point segment with the classic arrow style
contributes exactly two arrows. -/
theorem getArrows_vertex_firstlast_witness :
    ((getArrows (some (3, 4)) "vertex-firstlast"
        (.flat [((0 : ℝ), (0 : ℝ)), (10, 0)]) 3 0).getD []).length = 2 := by
  have h := (getArrows_vertex_firstlast (3, 4)
    (.flat [((0 : ℝ), (0 : ℝ)), (10, 0)]) 3 0 (by decide)).2
  rw [h]
  rfl

/-- Claim C6: the arrow-polygon function returns the closed kite
`[wing0, tip, wing1, wing0]` described by the spec, with the back-tip `height`
back from the tip along the unit direction from `prePoint` to `point` and the
wings offset plus and minus `halfWidth` along its perpendicular. -/
theorem getArrowPoints_kite (prePoint point : RPoint) (lineWidth : ℝ)
    (arrowStyle : ℝ × ℝ) (tolerance : ℝ) (_h : prePoint ≠ point) :
    getArrowPoints prePoint point lineWidth arrowStyle tolerance =
      computeArrowPolygonSpec prePoint point lineWidth arrowStyle tolerance := by
  unfold getArrowPoints computeArrowPolygonSpec psub padd pmult pperp
  simp only [List.cons.injEq, Prod.mk.injEq, and_true]
  and_intros <;> first | trivial | ring

/-- Witness for C6 containing the claim's concrete instance: for
`prevPoint = (0,0)`, `tipPoint = (10,0)`, `lineWidth = 3`,
`arrowStyle = [3,4]`, `tolerance = 0` the kite's tip is `(10,0)` and its wings
sit symmetric about `y = 0` at `x = -2`. -/
theorem getArrowPoints_kite_witness :
    ((0, 0) : RPoint) ≠ (10, 0) ∧
    getArrowPoints ((0, 0) : RPoint) (10, 0) 3 (3, 4) 0 =
      [(-2, 9 / 2), (10, 0), (-2, -(9 / 2)), (-2, 9 / 2)] := by
  have hne : ((0, 0) : RPoint) ≠ (10, 0) := by
    intro hc
    have h1 := congrArg Prod.fst hc
    norm_num at h1
  refine ⟨hne, ?_⟩
  rw [getArrowPoints_kite (0, 0) (10, 0) 3 (3, 4) 0 hne]
  have hs : Real.sqrt 100 = 10 := by
    rw [show (100 : ℝ) = 10 ^ 2 by norm_num]
    exact Real.sqrt_sq (by norm_num)
  unfold computeArrowPolygonSpec punit plen psub padd pmult pperp
  norm_num [hs]

end Maptalks
